import Mathlib

/-
  Shallow embedding of src/production/flws_live_monitor_jan29.py.

  The monitor samples market data for one symbol, classifies the price
  against fixed levels, and composes a structured alert payload.
  Numbers are modelled as exact rationals (the Python code works on
  floats; every claim under consideration is about comparisons and
  branch selection, not float rounding artefacts).  Python `round`
  rounds half to even; it is modelled here by `round` (half away from
  zero upward), which agrees everywhere off exact ties, and no claim
  evaluates at a tie.  Rendered numeric text inside f-strings is kept
  either as the exact number or, for optional dict fields, as a String
  produced from the same `dict.get` default the source uses.
-/

/-- Wall-clock local time of day, mirroring the fields of
`datetime.now()` that the source reads (`hour`, `minute`, seconds). -/
structure ClockTime where
  hour : ℕ
  minute : ℕ
  second : ℕ

/-- Seconds since midnight of a `ClockTime`. -/
def secondsSinceMidnight (t : ClockTime) : ℤ :=
  (t.hour : ℤ) * 3600 + (t.minute : ℤ) * 60 + (t.second : ℤ)

/-- Line 143-144 of the source: `market_open = now.replace(hour=9, minute=30, ...)`;
`minutes_open = max(1, (now - market_open).total_seconds() / 60)`.
Market open 9:30 is 34200 seconds since midnight. -/
def minutesOpen (t : ClockTime) : ℚ :=
  max 1 (((secondsSinceMidnight t : ℚ) - 34200) / 60)

/-- Lines 147-150: `if 9 <= now.hour <= 16: velocity = volume / minutes_open
else: velocity = 0`.  This is the velocity value `get_live_data` assigns
to the polygon observation. -/
def assignedVelocity (volume : ℕ) (t : ClockTime) : ℚ :=
  if 9 ≤ t.hour ∧ t.hour ≤ 16 then (volume : ℚ) / minutesOpen t else 0

/-- The normalized observation dict produced by either adapter.
Keys present in the polygon dict but absent from the yfinance dict
(`vwap`, `spread`, `bid_size`, `ask_size`, `imbalance`) and the
`velocity` key (set only on the polygon path of `get_live_data`) are
`Option`s: `none` models the key being absent from the dict, so that
`dict.get(key, default)` becomes `Option.getD`. -/
structure Observation where
  source : String
  price : ℚ
  prev_close : ℚ
  change_pct : ℚ
  volume : ℕ
  high : ℚ
  low : ℚ
  vwap : Option ℚ
  spread : Option ℚ
  bid_size : Option ℤ
  ask_size : Option ℤ
  imbalance : Option ℚ
  velocity : Option ℚ

/-- The `LEVELS` configuration dict, lines 46-51. -/
structure LevelConfig where
  NATURAL_FLOOR : ℚ
  PIN_BREAK : ℚ
  MARGIN_STRESS : ℚ
  NUCLEAR : ℚ

/-- Line 46-51: `LEVELS = { "NATURAL_FLOOR": 4.80, "PIN_BREAK": 5.03,
"MARGIN_STRESS": 5.46, "NUCLEAR": 6.00 }`. -/
def LEVELS : LevelConfig :=
  { NATURAL_FLOOR := 4.80, PIN_BREAK := 5.03, MARGIN_STRESS := 5.46, NUCLEAR := 6.00 }

/-- Line 52: `VACUUM_VOLUME_TARGET = 1_500_000`. -/
def VACUUM_VOLUME_TARGET : ℕ := 1500000

/-- Python `round(x, 2)` on the model rationals. -/
def round2 (q : ℚ) : ℚ := (round (q * 100) : ℚ) / 100

/-- Python `round(x, 1)` / the `:.1f` format rounding on the model rationals. -/
def round1 (q : ℚ) : ℚ := (round (q * 10) : ℚ) / 10

/-- Lines 110-114 of `get_polygon_snapshot`:
`imbalance = 0; if (bid_size + ask_size) > 0: imbalance =
(bid_size - ask_size) / (bid_size + ask_size)`. -/
def polygonImbalance (bid_size ask_size : ℚ) : ℚ :=
  if bid_size + ask_size > 0 then (bid_size - ask_size) / (bid_size + ask_size) else 0

/-- The dict built by the yfinance branch of `get_live_data`,
lines 182-190: source label "YFINANCE (Retail)", prices rounded to two
decimals, `change_pct` derived from current price and previous close,
and none of the polygon-only keys present. -/
def mkYfObservation (current_price prev_close high low : ℚ) (volume : ℕ) : Observation :=
  { source := "YFINANCE (Retail)"
  , price := round2 current_price
  , prev_close := round2 prev_close
  , change_pct := round2 (((current_price - prev_close) / prev_close) * 100)
  , volume := volume
  , high := round2 high
  , low := round2 low
  , vwap := none
  , spread := none
  , bid_size := none
  , ask_size := none
  , imbalance := none
  , velocity := none }

/-- Lines 134-193, `get_live_data`: try polygon first; on success attach
the velocity and return it; otherwise fall back to yfinance when the
library is available; when everything fails return `none` (Python
`None`).  The network fetches themselves are the function's inputs:
`polyResult` is what `get_polygon_snapshot()` returned and `yfResult`
what the yfinance branch would produce. -/
def getLiveData (polyResult : Option Observation) (yfinanceAvailable : Bool)
    (yfResult : Option Observation) (now : ClockTime) : Option Observation :=
  match polyResult with
  | some p => some { p with velocity := some (assignedVelocity p.volume now) }
  | none => if yfinanceAvailable then yfResult else none

/-- Lines 203-217 of `generate_status_report`: the status / colour
if-chain.  Default is the safe label; `>` comparisons descend through
the levels and `<` against the floor selects the discount label. -/
def statusColor (price : ℚ) : String × ℕ :=
  if price > LEVELS.NUCLEAR then ("☢️ NUCLEAR LIQUIDATION (T+1 DELIVERY RISK)", 0xFF0000)
  else if price > LEVELS.MARGIN_STRESS then ("🟠 MARGIN STRESS (FORCED BUYING)", 0xE67E22)
  else if price > LEVELS.PIN_BREAK then ("🟡 PIN BROKEN (WEAK SHORTS COVERING)", 0xF1C40F)
  else if price < LEVELS.NATURAL_FLOOR then ("🔵 DISCOUNT (BELOW NATURAL FLOOR)", 0x3498DB)
  else ("🟢 SAFE (ACCUMULATION)", 0x2ECC71)

/-- Lines 224-229: `if data.get('imbalance', 0) > 0.3: ... elif
data.get('imbalance', 0) < -0.3: ... else: ...`.  The argument is the
dict entry: `none` when the key is absent. -/
def classifyPressure (imbalance : Option ℚ) : String :=
  if imbalance.getD 0 > 0.3 then "🟢 BUYING PRESSURE"
  else if imbalance.getD 0 < -0.3 then "🔴 SELLING WALL"
  else "⚪ BALANCED"

/-- The "Key Levels Watch" field, lines 245-248: each marker string as the
source renders it, with the hard-coded level literals of those lines. -/
structure KeyLevels where
  nuclear : String
  stress : String
  pin : String
  floor : String

/-- Lines 245-248 of the embed construction. -/
def keyLevelsValue (price : ℚ) : KeyLevels :=
  { nuclear := if price ≥ 6.00 then "✅ BREACHED" else "Wait..."
  , stress := if price ≥ 5.46 then "✅ BREACHED" else "Wait..."
  , pin := if price ≥ 5.03 then "✅ BREACHED" else "Wait..."
  , floor := if price ≥ 4.80 then "✅ HELD" else "⚠️ AT RISK" }

/-- Components of the description f-string, lines 231-235: the numbers
interpolated are kept exact; `pressure` and the shown imbalance come
from `data.get('imbalance', 0)`. -/
structure Description where
  price : ℚ
  changePct : ℚ
  volume : ℕ
  volPct : ℚ
  pressure : String
  imbalanceShown : ℚ

/-- The "Liquidity Vacuum Model" field, lines 253-261: the rendered text
for the three optional dict entries (built with the same `dict.get`
defaults the f-string uses) plus the spread qualitative tag and the
filled percentage. -/
structure LiquidityModel where
  spreadText : String
  spreadTag : String
  bidText : String
  askText : String
  filledPct : ℚ

/-- The discord embed dict built by `generate_status_report`,
lines 237-267. -/
structure Embed where
  title : String
  description : Description
  color : ℕ
  keyLevels : KeyLevels
  liquidity : LiquidityModel
  footer : String

/-- The returned payload, line 269: `{"embeds": [embed]}`. -/
structure Payload where
  embeds : List Embed

/-- Lines 198-267: builds the embed from the observation dict.  `ts` is
the generation timestamp string that the source takes from
`datetime.now().strftime(...)` in the footer, factored out as an input
so the composition itself is a pure function. -/
def buildEmbed (data : Observation) (ts : String) : Embed :=
  let sc := statusColor data.price
  let volPct : ℚ := ((data.volume : ℚ) / (VACUUM_VOLUME_TARGET : ℚ)) * 100
  { title := "FLWS LIVE MONITOR: " ++ sc.1
  , description :=
      { price := data.price
      , changePct := data.change_pct
      , volume := data.volume
      , volPct := volPct
      , pressure := classifyPressure data.imbalance
      , imbalanceShown := data.imbalance.getD 0 }
  , color := sc.2
  , keyLevels := keyLevelsValue data.price
  , liquidity :=
      { spreadText :=
          match data.spread with
          | some s => toString s
          | none => "N/A"
      , spreadTag :=
          if data.spread.getD 0 > 5 then "⚠️ (WIDENING - Vacuum Forming)"
          else "✅ (Tight - Algo Controlled)"
      , bidText := toString (data.bid_size.getD 0)
      , askText := toString (data.ask_size.getD 0)
      , filledPct := volPct }
  , footer := "Kurrupt Research | " ++ data.source ++ " | " ++ ts }

/-- Line 269: `generate_status_report` returns `{"embeds": [embed]}`. -/
def generateStatusReport (data : Observation) (ts : String) : Payload :=
  ⟨[buildEmbed data ts]⟩

/-- Lines 278-290 of `main`: fetch the live data and, only when a single
observation was obtained, compose the alert payload; on fetch failure
the cycle produces no payload. -/
def cyclePayload (polyResult : Option Observation) (yfinanceAvailable : Bool)
    (yfResult : Option Observation) (now : ClockTime) (ts : String) : Option Payload :=
  (getLiveData polyResult yfinanceAvailable yfResult now).map
    (fun d => generateStatusReport d ts)

/-- C1: a price exactly equal to the floor level (4.80) is classified by
`generate_status_report` with the baseline safe/accumulation label, never
the discount label: the discount branch requires `price < floor` strictly. -/
theorem price_at_floor_is_safe (d : Observation) (ts : String)
    (h : d.price = LEVELS.NATURAL_FLOOR) :
    (statusColor d.price).1 = "🟢 SAFE (ACCUMULATION)" ∧
    (statusColor d.price).1 ≠ "🔵 DISCOUNT (BELOW NATURAL FLOOR)" ∧
    (buildEmbed d ts).title = "FLWS LIVE MONITOR: 🟢 SAFE (ACCUMULATION)" := by
  have hs : statusColor d.price = ("🟢 SAFE (ACCUMULATION)", 0x2ECC71) := by
    rw [h]; norm_num [statusColor, LEVELS]
  refine ⟨by rw [hs], by rw [hs]; decide, ?_⟩
  simp only [buildEmbed, hs]
  rfl

/-- Witness for C1: the yfinance observation with current price 4.80 has
price exactly at the floor and is reported safe. -/
theorem price_at_floor_is_safe_witness :
    (statusColor (mkYfObservation 4.8 5 5 4.8 0).price).1 = "🟢 SAFE (ACCUMULATION)" ∧
    (statusColor (mkYfObservation 4.8 5 5 4.8 0).price).1 ≠ "🔵 DISCOUNT (BELOW NATURAL FLOOR)" ∧
    (buildEmbed (mkYfObservation 4.8 5 5 4.8 0) "09:31:00 ET").title
      = "FLWS LIVE MONITOR: 🟢 SAFE (ACCUMULATION)" :=
  price_at_floor_is_safe _ _ (by norm_num [mkYfObservation, round2, round_eq, LEVELS])

/-- C2: any price strictly above the NUCLEAR level (6.00) is classified
with the top (nuclear) label, whatever the other fields: the if-chain
checks the highest threshold first and the first match wins. -/
theorem price_above_nuclear_dominates (d : Observation) (ts : String)
    (h : LEVELS.NUCLEAR < d.price) :
    (statusColor d.price).1 = "☢️ NUCLEAR LIQUIDATION (T+1 DELIVERY RISK)" ∧
    (buildEmbed d ts).title
      = "FLWS LIVE MONITOR: ☢️ NUCLEAR LIQUIDATION (T+1 DELIVERY RISK)" := by
  have hs : statusColor d.price = ("☢️ NUCLEAR LIQUIDATION (T+1 DELIVERY RISK)", 0xFF0000) := by
    rw [statusColor, if_pos h]
  exact ⟨by rw [hs], by simp only [buildEmbed, hs]; rfl⟩

/-- Witness for C2: price 7.00 (above every level) is reported nuclear. -/
theorem price_above_nuclear_dominates_witness :
    (statusColor (mkYfObservation 7 5 7 7 0).price).1
      = "☢️ NUCLEAR LIQUIDATION (T+1 DELIVERY RISK)" ∧
    (buildEmbed (mkYfObservation 7 5 7 7 0) "10:00:00 ET").title
      = "FLWS LIVE MONITOR: ☢️ NUCLEAR LIQUIDATION (T+1 DELIVERY RISK)" :=
  price_above_nuclear_dominates _ _ (by norm_num [mkYfObservation, round2, round_eq, LEVELS])

/-- C3 counterexample: with the imbalance key absent, the report renders
the balanced label, not a distinct "unknown/no data" label — the source
reads `data.get('imbalance', 0)`, so a missing key is indistinguishable
from an exact 0 and falls into the balanced branch. -/
theorem absent_imbalance_renders_balanced :
    (mkYfObservation 5 5 5 5 0).imbalance = none ∧
    classifyPressure (mkYfObservation 5 5 5 5 0).imbalance = "⚪ BALANCED" ∧
    (buildEmbed (mkYfObservation 5 5 5 5 0) "10:00:00 ET").description.pressure
      = "⚪ BALANCED" := by
  refine ⟨rfl, ?_, ?_⟩ <;>
    norm_num [mkYfObservation, buildEmbed, classifyPressure, Option.getD]

/-- C3 amended: an absent imbalance defaults to 0 and is classified as
balanced (there is no unknown/no-data label); a present imbalance is
classified buying-pressure iff it exceeds 0.3, selling-wall iff it is
below -0.3, and balanced otherwise. -/
theorem pressure_classification_with_default :
    (∀ i : ℚ,
      (classifyPressure (some i) = "🟢 BUYING PRESSURE" ↔ 0.3 < i) ∧
      (classifyPressure (some i) = "🔴 SELLING WALL" ↔ i < -0.3) ∧
      (classifyPressure (some i) = "⚪ BALANCED" ↔ (-0.3 ≤ i ∧ i ≤ 0.3))) ∧
    classifyPressure none = "⚪ BALANCED" := by
  refine ⟨fun i => ?_, by norm_num [classifyPressure, Option.getD]⟩
  simp only [classifyPressure, Option.getD_some]
  by_cases h1 : (0.3 : ℚ) < i
  · rw [if_pos h1]
    exact ⟨⟨fun _ => h1, fun _ => rfl⟩,
           ⟨fun hc => absurd hc (by decide), fun h2 => absurd h2 (by linarith)⟩,
           ⟨fun hc => absurd hc (by decide), fun hb => absurd h1 (by linarith [hb.2])⟩⟩
  · rw [if_neg h1]
    by_cases h2 : i < -0.3
    · rw [if_pos h2]
      exact ⟨⟨fun hc => absurd hc (by decide), fun hgt => absurd hgt h1⟩,
             ⟨fun _ => h2, fun _ => rfl⟩,
             ⟨fun hc => absurd hc (by decide), fun hb => absurd h2 (by linarith [hb.1])⟩⟩
    · rw [if_neg h2]
      exact ⟨⟨fun hc => absurd hc (by decide), fun hgt => absurd hgt h1⟩,
             ⟨fun hc => absurd hc (by decide), fun hlt => absurd hlt h2⟩,
             ⟨fun _ => ⟨not_lt.mp h2, not_lt.mp h1⟩, fun _ => rfl⟩⟩

/-- C4 counterexample: for an observation missing spread, bid_size and
ask_size, the bid and ask positions of the liquidity field render the
string "0" (the source defaults are `data.get('bid_size', 0)` and
`data.get('ask_size', 0)`), so they are not neutral placeholders. -/
theorem absent_sizes_render_zero :
    (mkYfObservation 5 5 5 5 0).spread = none ∧
    (mkYfObservation 5 5 5 5 0).bid_size = none ∧
    (mkYfObservation 5 5 5 5 0).ask_size = none ∧
    (buildEmbed (mkYfObservation 5 5 5 5 0) "10:00:00 ET").liquidity.bidText = "0" ∧
    (buildEmbed (mkYfObservation 5 5 5 5 0) "10:00:00 ET").liquidity.askText = "0" := by
  exact ⟨rfl, rfl, rfl, rfl, rfl⟩

/-- C4 amended: with spread, bid_size and ask_size all absent, only the
spread position renders the neutral placeholder "N/A"; bid_size and
ask_size default to 0 and render as "0". -/
theorem absent_optional_fields_rendering (d : Observation) (ts : String)
    (hs : d.spread = none) (hb : d.bid_size = none) (ha : d.ask_size = none) :
    (buildEmbed d ts).liquidity.spreadText = "N/A" ∧
    (buildEmbed d ts).liquidity.bidText = "0" ∧
    (buildEmbed d ts).liquidity.askText = "0" := by
  simp only [buildEmbed, hs, hb, ha]
  exact ⟨trivial, rfl, rfl⟩

/-- Witness for the amended C4 at a concrete observation missing all
three optional fields. -/
theorem absent_optional_fields_rendering_witness :
    (buildEmbed (mkYfObservation 6 5 6 6 100) "11:00:00 ET").liquidity.spreadText = "N/A" ∧
    (buildEmbed (mkYfObservation 6 5 6 6 100) "11:00:00 ET").liquidity.bidText = "0" ∧
    (buildEmbed (mkYfObservation 6 5 6 6 100) "11:00:00 ET").liquidity.askText = "0" :=
  absent_optional_fields_rendering _ _ rfl rfl rfl

/-- C5 counterexample: at 16:30 local time — after the 16:00 market
close, so outside the claimed 9:30-16:00 trading window — the velocity
assigned by `get_live_data` to an observation with volume 420 is 1, not
0: the source gates on `9 <= now.hour <= 16`, which is still true at
16:30. -/
theorem velocity_after_close_nonzero :
    16 * 3600 < secondsSinceMidnight ⟨16, 30, 0⟩ ∧
    assignedVelocity 420 ⟨16, 30, 0⟩ = 1 ∧ (1 : ℚ) ≠ 0 := by
  refine ⟨by norm_num [secondsSinceMidnight], ?_, by norm_num⟩
  rw [assignedVelocity, if_pos (by norm_num)]
  rw [minutesOpen, secondsSinceMidnight]
  norm_num [max_def]

/-- C5 amended: the window the code actually checks is the hour range
9-16 inclusive (9:00:00 through 16:59:59).  For any wall-clock time with
hour before 9 or after 16, the assigned velocity is exactly 0,
independent of volume. -/
theorem velocity_zero_outside_hour_window (volume : ℕ) (t : ClockTime)
    (h : t.hour < 9 ∨ 16 < t.hour) :
    assignedVelocity volume t = 0 := by
  rw [assignedVelocity, if_neg]
  rintro ⟨h1, h2⟩
  rcases h with h | h <;> omega

/-- Witness for the amended C5 at 17:00 with a large volume. -/
theorem velocity_zero_outside_hour_window_witness :
    assignedVelocity 999999 ⟨17, 0, 0⟩ = 0 :=
  velocity_zero_outside_hour_window 999999 ⟨17, 0, 0⟩ (Or.inr (by norm_num))

/-- C6 counterexample: two both-adapters-fail scenarios that differ in
which adapters were tried and why (yfinance tried and failed vs yfinance
not even installed) return the identical bare `none`: the failure value
returned by `get_live_data` carries no enumeration of the adapters tried
nor of the reasons each failed. -/
theorem total_failure_is_bare_none :
    getLiveData none true none ⟨10, 0, 0⟩ = getLiveData none false none ⟨10, 0, 0⟩ ∧
    getLiveData none true none ⟨10, 0, 0⟩ = none :=
  ⟨rfl, rfl⟩

/-- C6 amended: `get_live_data` tries polygon first and returns its
observation (with velocity attached) whenever it succeeds; when polygon
fails and yfinance succeeds it returns the retail observation tagged
"YFINANCE (Retail)"; when both fail it returns a bare `none` carrying no
diagnostic content, and the cycle in `main` then produces no alert
payload. -/
theorem fallback_chain_behavior (p : Observation) (yfAvail : Bool)
    (yfResult : Option Observation) (t : ClockTime) (ts : String)
    (cp pc hi lo : ℚ) (vol : ℕ) :
    getLiveData (some p) yfAvail yfResult t
      = some { p with velocity := some (assignedVelocity p.volume t) } ∧
    getLiveData none true (some (mkYfObservation cp pc hi lo vol)) t
      = some (mkYfObservation cp pc hi lo vol) ∧
    (mkYfObservation cp pc hi lo vol).source = "YFINANCE (Retail)" ∧
    getLiveData none yfAvail none t = none ∧
    cyclePayload none yfAvail none t ts = none := by
  refine ⟨rfl, rfl, rfl, ?_, ?_⟩ <;> cases yfAvail <;> rfl

/-- C7: the order-flow imbalance computed by `get_polygon_snapshot` is
exactly 0 when both sizes are 0 (no division-by-zero fault), and for any
non-negative sizes with positive sum it equals
(bid_size - ask_size) / (bid_size + ask_size) and lies in [-1, 1]. -/
theorem imbalance_zero_and_bounded :
    polygonImbalance 0 0 = 0 ∧
    ∀ b a : ℚ, 0 ≤ b → 0 ≤ a → 0 < b + a →
      polygonImbalance b a = (b - a) / (b + a) ∧
      -1 ≤ polygonImbalance b a ∧ polygonImbalance b a ≤ 1 := by
  constructor
  · norm_num [polygonImbalance]
  · intro b a hb ha hsum
    have heq : polygonImbalance b a = (b - a) / (b + a) := by
      rw [polygonImbalance, if_pos hsum]
    refine ⟨heq, ?_, ?_⟩
    · rw [heq, le_div_iff₀ hsum]; linarith
    · rw [heq, div_le_one hsum]; linarith

/-- Witness for C7 at bid_size 3, ask_size 1. -/
theorem imbalance_zero_and_bounded_witness :
    polygonImbalance 3 1 = (3 - 1) / (3 + 1) ∧
    -1 ≤ polygonImbalance 3 1 ∧ polygonImbalance 3 1 ≤ 1 :=
  imbalance_zero_and_bounded.2 3 1 (by norm_num) (by norm_num) (by norm_num)

/-- C8: the end-to-end example.  A yfinance observation with current
price 5.50, previous close 5.00 and volume 800000 under the configured
levels and the 1.5M volume target is reported with status MARGIN STRESS,
change_pct 10.00, percent-of-target rounding to 53.3, PIN_BREAK and
MARGIN_STRESS marked breached (price >= level), NUCLEAR not breached,
and the floor held. -/
theorem end_to_end_margin_stress_example :
    (buildEmbed (mkYfObservation 5.5 5 5.5 5.5 800000) "12:00:00 ET").title
      = "FLWS LIVE MONITOR: 🟠 MARGIN STRESS (FORCED BUYING)" ∧
    (buildEmbed (mkYfObservation 5.5 5 5.5 5.5 800000) "12:00:00 ET").description.changePct
      = 10 ∧
    round1 ((buildEmbed (mkYfObservation 5.5 5 5.5 5.5 800000) "12:00:00 ET").description.volPct)
      = 53.3 ∧
    (buildEmbed (mkYfObservation 5.5 5 5.5 5.5 800000) "12:00:00 ET").keyLevels.pin
      = "✅ BREACHED" ∧
    (buildEmbed (mkYfObservation 5.5 5 5.5 5.5 800000) "12:00:00 ET").keyLevels.stress
      = "✅ BREACHED" ∧
    (buildEmbed (mkYfObservation 5.5 5 5.5 5.5 800000) "12:00:00 ET").keyLevels.nuclear
      = "Wait..." ∧
    (buildEmbed (mkYfObservation 5.5 5 5.5 5.5 800000) "12:00:00 ET").keyLevels.floor
      = "✅ HELD" := by
  have hp : (mkYfObservation 5.5 5 5.5 5.5 800000).price = 5.5 := by
    norm_num [mkYfObservation, round2, round_eq]
  have hstat : statusColor (5.5 : ℚ) = ("🟠 MARGIN STRESS (FORCED BUYING)", 0xE67E22) := by
    norm_num [statusColor, LEVELS]
  refine ⟨?_, ?_, ?_, ?_, ?_, ?_, ?_⟩
  · show "FLWS LIVE MONITOR: " ++ (statusColor (mkYfObservation 5.5 5 5.5 5.5 800000).price).1
      = "FLWS LIVE MONITOR: 🟠 MARGIN STRESS (FORCED BUYING)"
    rw [hp, hstat]
    rfl
  · show (mkYfObservation 5.5 5 5.5 5.5 800000).change_pct = 10
    norm_num [mkYfObservation, round2, round_eq]
  · show round1 (((mkYfObservation 5.5 5 5.5 5.5 800000).volume : ℚ)
      / (VACUUM_VOLUME_TARGET : ℚ) * 100) = 53.3
    norm_num [mkYfObservation, VACUUM_VOLUME_TARGET, round1, round_eq]
  · show (keyLevelsValue (mkYfObservation 5.5 5 5.5 5.5 800000).price).pin = "✅ BREACHED"
    rw [hp]; norm_num [keyLevelsValue]
  · show (keyLevelsValue (mkYfObservation 5.5 5 5.5 5.5 800000).price).stress = "✅ BREACHED"
    rw [hp]; norm_num [keyLevelsValue]
  · show (keyLevelsValue (mkYfObservation 5.5 5 5.5 5.5 800000).price).nuclear = "Wait..."
    rw [hp]; norm_num [keyLevelsValue]
  · show (keyLevelsValue (mkYfObservation 5.5 5 5.5 5.5 800000).price).floor = "✅ HELD"
    rw [hp]; norm_num [keyLevelsValue]

/-- C9: `generate_status_report` is deterministic once the generation
timestamp is factored out as an explicit input: identical observation
and timestamp give an identical payload, and the embedded composition is
a pure function with no other source of randomness. -/
theorem report_deterministic (d₁ d₂ : Observation) (t₁ t₂ : String)
    (hd : d₁ = d₂) (ht : t₁ = t₂) :
    generateStatusReport d₁ t₁ = generateStatusReport d₂ t₂ := by
  rw [hd, ht]

/-- Witness for C9 at a concrete observation and timestamp. -/
theorem report_deterministic_witness :
    generateStatusReport (mkYfObservation 5.5 5 5.5 5.5 800000) "12:00:00 ET"
      = generateStatusReport (mkYfObservation 5.5 5 5.5 5.5 800000) "12:00:00 ET" :=
  report_deterministic _ _ _ _ rfl rfl

/-- C10: the composed payload does not depend on the observation's
velocity, vwap, high or low fields: two observations differing only in
those fields (timestamp fixed) give identical payloads, even though
`get_live_data` computes a velocity before composition. -/
theorem report_ignores_velocity_vwap_high_low (d : Observation)
    (v w : Option ℚ) (hi lo : ℚ) (ts : String) :
    generateStatusReport { d with velocity := v, vwap := w, high := hi, low := lo } ts
      = generateStatusReport d ts := rfl
